import Mathlib

/-!
Verification of the chat-app real-time broadcast engine.

Shallow embedding of the Socket.IO chat server (`src/server/server.js`,
socket module) and the history route (`src/server/routes/chatRoutes.js`),
with theorems checking the specification's claims about message
submission, presence events, authentication gating and history retrieval.

Modelling conventions:
* a Socket.IO socket is a `Socket` record carrying the fields the handlers
  store on it (`socket.userId`, `socket.username`) plus its id;
* the namespace of connected sockets is a `List Socket`;
* `io.emit` / `socket.broadcast.emit` / `socket.emit` become list-level
  delivery functions producing `(recipient socket id, event)` pairs;
* the MySQL `messages` table is a `Db` record: a list of rows plus the
  `AUTO_INCREMENT` counter (`src/database/schema.sql`);
* the outcome of the awaited `INSERT` query is an explicit `persistOk`
  boolean input: `true` runs the success path, `false` the `catch` path;
* timestamps are `Nat` (the handlers only ever pass `new Date()` through);
* message text is its character sequence (`Text := List Char`), with
  `trimText` and `takeText` translating `String.prototype.trim` and
  `substring(0, n)`.
-/

namespace ChatApp

/-- A JavaScript string, as the sequence of its characters. -/
abbrev Text := List Char

/-- Translation of `String.prototype.trim()`: remove leading and trailing whitespace. -/
def trimText (t : Text) : Text :=
  ((List.dropWhile Char.isWhitespace
    (List.dropWhile Char.isWhitespace t).reverse)).reverse

/-- Translation of `s.substring(0, n)`: the first `n` characters (all of
them when the string is shorter). -/
def takeText (n : Nat) (t : Text) : Text := List.take n t

/-- A row of the `messages` table (`src/database/schema.sql`):
`id` (AUTO_INCREMENT), `user_id`, `username`, `message`, `timestamp`. -/
structure MsgRow where
  id : Nat
  user_id : Nat
  username : String
  message : Text
  timestamp : Nat
deriving Repr, DecidableEq

/-- The `messages` table plus its `AUTO_INCREMENT` counter. -/
structure Db where
  rows : List MsgRow
  nextId : Nat
deriving Repr, DecidableEq

/-- The insert `INSERT INTO messages (user_id, username, message, timestamp)
VALUES (?,?,?,?)`: appends a row with the auto-assigned id and returns
`result.insertId`. -/
def Db.insertMessage (db : Db) (uid : Nat) (un : String) (msg : Text) (ts : Nat) :
    Db × Nat :=
  ({ rows := db.rows ++ [⟨db.nextId, uid, un, msg, ts⟩],
     nextId := db.nextId + 1 }, db.nextId)

/-- The express session object as the socket handlers read it:
`session.userId` (possibly absent) and `session.username`. -/
structure Sess where
  userId : Option Nat
  username : String
deriving Repr, DecidableEq

/-- A connected socket with the fields stored on it by the connection
handler: `socket.userId = session.userId`, `socket.username = session.username`. -/
structure Socket where
  sid : Nat
  userId : Nat
  username : String
deriving Repr, DecidableEq

/-- Outbound Socket.IO events emitted by the server, one constructor per
`emit` event name appearing in the socket module. -/
inductive Event where
  | welcome (message : String) (username : String)
  | userJoined (username : String) (timestamp : Nat)
  | chatMessage (id : Nat) (userId : Nat) (username : String)
      (message : Text) (timestamp : Nat)
  | errorEv (message : String)
  | userTyping (username : String)
  | userStopTyping (username : String)
  | userLeft (username : String) (timestamp : Nat)
deriving Repr, DecidableEq

/-- Delivery of `io.emit(e)`: every connected socket, the sender included. -/
def ioEmit (socks : List Socket) (e : Event) : List (Nat × Event) :=
  socks.map (fun s => (s.sid, e))

/-- Delivery of `socket.broadcast.emit(e)`: every connected socket except
the one with id `self`. -/
def broadcastEmit (socks : List Socket) (self : Nat) (e : Event) :
    List (Nat × Event) :=
  (socks.filter (fun s => s.sid != self)).map (fun s => (s.sid, e))

/-- Delivery of `socket.emit(e)`: the socket itself only. -/
def selfEmit (self : Nat) (e : Event) : List (Nat × Event) :=
  [(self, e)]

/-- The JavaScript truthiness test `session && session.userId` guarding the
connection handler: false when the session is absent, has no `userId`, or
has the falsy `userId` 0. -/
def sessionAuthed : Option Sess → Bool
  | none => false
  | some s =>
    match s.userId with
    | none => false
    | some u => u != 0

/-- The inbound payload of a `'chat message'` event.  The handler
destructures only `message` (`const { message } = data`); any extra
fields a client sends, such as a claimed identity, are ignored. -/
structure ChatData where
  message : Option Text
  claimedUserId : Option Nat
  claimedUsername : Option String
deriving Repr, DecidableEq

/-- Whole-server state: the connected sockets and the database. -/
structure SysState where
  sockets : List Socket
  db : Db
deriving Repr, DecidableEq

/-- Inbound occurrences the socket module reacts to: a connection
handshake (with its session), a `'chat message'` event (with the awaited
insert's outcome), `'typing'`, `'stop typing'`, and a disconnect. -/
inductive Input where
  | connect (sid : Nat) (session : Option Sess) (now : Nat)
  | chatMsg (sid : Nat) (data : ChatData) (persistOk : Bool) (now : Nat)
  | typing (sid : Nat)
  | stopTyping (sid : Nat)
  | disconnect (sid : Nat) (now : Nat)
deriving Repr, DecidableEq

/-- The socket id an input arrives on. -/
def Input.src : Input → Nat
  | .connect sid _ _ => sid
  | .chatMsg sid _ _ _ => sid
  | .typing sid => sid
  | .stopTyping sid => sid
  | .disconnect sid _ => sid

/-- Look up a connected socket by id. -/
def findSock (socks : List Socket) (sid : Nat) : Option Socket :=
  socks.find? (fun s => s.sid == sid)

/-- The `io.on('connection')` handler.  An unauthenticated session
(`!session || !session.userId`) is disconnected at once: no fields are
stored, no events are emitted, the socket is not kept.  Otherwise the
socket is kept with the session's identity, `'user joined'` goes to
everyone else (`socket.broadcast.emit`) and `'welcome'` to the socket
itself. -/
def stepConnect (s : SysState) (sid : Nat) (session : Option Sess)
    (now : Nat) : SysState × List (Nat × Event) :=
  match session with
  | none => (s, [])
  | some sess =>
    match sess.userId with
    | none => (s, [])
    | some uid =>
      if uid = 0 then (s, [])
      else
        let sock : Socket := ⟨sid, uid, sess.username⟩
        let socks' := s.sockets ++ [sock]
        ({ sockets := socks', db := s.db },
          broadcastEmit socks' sid (.userJoined sess.username now) ++
            selfEmit sid
              (.welcome ("Welcome to the chat, " ++ sess.username ++ "!")
                sess.username))

/-- The `socket.on('chat message')` handler.  Empty or whitespace-only
text (`!message || message.trim() === ''`) is answered with a unicast
error and nothing else.  Otherwise the text is trimmed and truncated to
1000 characters, inserted into the database, and — only when the awaited
insert succeeds — broadcast via `io.emit` to every connected socket.
When the insert throws, the `catch` block unicasts a failure error. -/
def handleChatMessage (io : List Socket) (sock : Socket) (db : Db)
    (data : ChatData) (persistOk : Bool) (now : Nat) :
    Db × List (Nat × Event) :=
  match data.message with
  | none => (db, selfEmit sock.sid (.errorEv "Message cannot be empty"))
  | some m =>
    if m = ([] : Text) ∨ trimText m = ([] : Text) then
      (db, selfEmit sock.sid (.errorEv "Message cannot be empty"))
    else
      let sanitizedMessage := takeText 1000 (trimText m)
      if persistOk then
        let ins := db.insertMessage sock.userId sock.username
          sanitizedMessage now
        (ins.1, ioEmit io
          (.chatMessage ins.2 sock.userId sock.username sanitizedMessage now))
      else
        (db, selfEmit sock.sid (.errorEv "Failed to send message"))

/-- One reaction of the socket module to an inbound occurrence.  Events
arriving on an id with no connected socket have no registered handler and
do nothing. -/
def step (s : SysState) : Input → SysState × List (Nat × Event)
  | .connect sid session now => stepConnect s sid session now
  | .chatMsg sid data persistOk now =>
    match findSock s.sockets sid with
    | none => (s, [])
    | some sock =>
      let r := handleChatMessage s.sockets sock s.db data persistOk now
      ({ sockets := s.sockets, db := r.1 }, r.2)
  | .typing sid =>
    match findSock s.sockets sid with
    | none => (s, [])
    | some sock => (s, broadcastEmit s.sockets sid (.userTyping sock.username))
  | .stopTyping sid =>
    match findSock s.sockets sid with
    | none => (s, [])
    | some sock =>
      (s, broadcastEmit s.sockets sid (.userStopTyping sock.username))
  | .disconnect sid now =>
    match findSock s.sockets sid with
    | none => (s, [])
    | some sock =>
      let remaining := s.sockets.filter (fun t => t.sid != sid)
      ({ sockets := remaining, db := s.db },
        broadcastEmit remaining sid (.userLeft sock.username now))

/-- Process a list of inbound occurrences in order, collecting every
delivered `(recipient, event)` pair. -/
def run (s : SysState) : List Input → SysState × List (Nat × Event)
  | [] => (s, [])
  | i :: is =>
    let r := step s i
    let r' := run r.1 is
    (r'.1, r.2 ++ r'.2)

/-- Ordering of message rows by the `timestamp` column (`ORDER BY
timestamp ASC`). -/
def byTime (a b : MsgRow) : Prop := a.timestamp ≤ b.timestamp

instance : DecidableRel byTime :=
  fun a b => inferInstanceAs (Decidable (a.timestamp ≤ b.timestamp))

instance : IsTotal MsgRow byTime :=
  ⟨fun a b => Nat.le_total a.timestamp b.timestamp⟩

instance : IsTrans MsgRow byTime :=
  ⟨fun _ _ _ h1 h2 => Nat.le_trans h1 h2⟩

/-- Translation of `parseInt(q) || d`: a missing or unparsable query
parameter, and also the falsy parse result 0, fall back to the default. -/
def parseIntOr (q : Option Int) (d : Int) : Int :=
  match q with
  | none => d
  | some n => if n = 0 then d else n

/-- The route `GET /api/chat/messages` (`src/server/routes/chatRoutes.js`): clamp
the limit to `[1, 100]`, then run
`SELECT ... ORDER BY timestamp ASC LIMIT ? OFFSET ?`.  A negative offset
makes the SQL query fail, which the route reports as a 500 error,
modelled as `none`. -/
def getMessages (rows : List MsgRow) (limitQ offsetQ : Option Int) :
    Option (List MsgRow) :=
  let limit := parseIntOr limitQ 50
  let offset := parseIntOr offsetQ 0
  let safeLimit := min (max limit 1) 100
  if offset < 0 then none
  else some (((List.insertionSort byTime rows).drop offset.toNat).take
    safeLimit.toNat)

/-! ## Helper lemmas -/

lemma trimText_nil : trimText [] = [] := rfl

lemma ne_nil_of_trim_ne_nil {m : Text} (h : trimText m ≠ []) : m ≠ [] := by
  intro hm
  exact h (hm ▸ trimText_nil)

lemma findSock_eq {socks : List Socket} {sid : Nat} {sock : Socket}
    (h : findSock socks sid = some sock) : sock ∈ socks ∧ sock.sid = sid := by
  refine ⟨List.mem_of_find?_eq_some h, ?_⟩
  have hp := List.find?_some h
  simpa using hp

lemma findSock_append_self {socks : List Socket} (sock : Socket)
    (hfresh : findSock socks sock.sid = none) :
    findSock (socks ++ [sock]) sock.sid = some sock := by
  unfold findSock at hfresh ⊢
  rw [List.find?_append, hfresh]
  simp

/-- Unfolding of `step` on a chat-message input whose sender is a
connected socket. -/
lemma step_chatMsg_found {s : SysState} {sid : Nat} {sock : Socket}
    (d : ChatData) (pOk : Bool) (now : Nat)
    (hfind : findSock s.sockets sid = some sock) :
    step s (.chatMsg sid d pOk now) =
      (⟨s.sockets, (handleChatMessage s.sockets sock s.db d pOk now).1⟩,
        (handleChatMessage s.sockets sock s.db d pOk now).2) := by
  simp only [step, hfind]

/-- The guarded branch: a blank submission answers with the empty-message
error only. -/
lemma handleChatMessage_blank (io : List Socket) (sock : Socket) (db : Db)
    (d : ChatData) (pOk : Bool) (now : Nat)
    (hblank : d.message = none ∨ ∃ m, d.message = some m ∧ trimText m = []) :
    handleChatMessage io sock db d pOk now =
      (db, [(sock.sid, Event.errorEv "Message cannot be empty")]) := by
  rcases hblank with h | ⟨m, hm, ht⟩
  · simp [handleChatMessage, h, selfEmit]
  · simp [handleChatMessage, hm, ht, selfEmit]

/-- The success branch of the chat-message handler. -/
lemma handleChatMessage_ok (io : List Socket) (sock : Socket) (db : Db)
    (d : ChatData) (m : Text) (now : Nat)
    (hmsg : d.message = some m) (hne : trimText m ≠ []) :
    handleChatMessage io sock db d true now =
      ({ rows := db.rows ++ [⟨db.nextId, sock.userId, sock.username,
            takeText 1000 (trimText m), now⟩], nextId := db.nextId + 1 },
        ioEmit io (Event.chatMessage db.nextId sock.userId sock.username
          (takeText 1000 (trimText m)) now)) := by
  simp [handleChatMessage, hmsg, ne_nil_of_trim_ne_nil hne, hne, Db.insertMessage]

/-- The `catch` branch of the chat-message handler. -/
lemma handleChatMessage_fail (io : List Socket) (sock : Socket) (db : Db)
    (d : ChatData) (m : Text) (now : Nat)
    (hmsg : d.message = some m) (hne : trimText m ≠ []) :
    handleChatMessage io sock db d false now =
      (db, [(sock.sid, Event.errorEv "Failed to send message")]) := by
  simp [handleChatMessage, hmsg, ne_nil_of_trim_ne_nil hne, hne, selfEmit]

/-- A `socket.broadcast.emit` from a freshly appended socket reaches
exactly the previously connected sockets. -/
lemma broadcastEmit_append_fresh (socks : List Socket) (sock : Socket)
    (sid : Nat) (e : Event) (hsid : sock.sid = sid)
    (hfresh : ∀ t ∈ socks, t.sid ≠ sid) :
    broadcastEmit (socks ++ [sock]) sid e =
      socks.map (fun t => (t.sid, e)) := by
  unfold broadcastEmit
  rw [List.filter_append]
  have h1 : socks.filter (fun s => s.sid != sid) = socks :=
    List.filter_eq_self.2 (fun t ht => by simpa using hfresh t ht)
  have h2 : List.filter (fun s => s.sid != sid) [sock] = [] := by
    simp [hsid]
  rw [h1, h2, List.append_nil]

/-- Unfolding of `stepConnect` on an authenticated session. -/
lemma stepConnect_authed (s : SysState) (sid uid : Nat) (sess : Sess)
    (now : Nat) (huid : sess.userId = some uid) (h0 : uid ≠ 0) :
    stepConnect s sid (some sess) now =
      (⟨s.sockets ++ [⟨sid, uid, sess.username⟩], s.db⟩,
        broadcastEmit (s.sockets ++ [⟨sid, uid, sess.username⟩]) sid
            (.userJoined sess.username now) ++
          [(sid, .welcome ("Welcome to the chat, " ++ sess.username ++ "!")
            sess.username)]) := by
  simp [stepConnect, huid, h0, selfEmit]

lemma count_pair_map (socks : List Socket) (e : Event) (x : Nat) :
    ((socks.map fun t => (t.sid, e)).count (x, e)) =
      ((socks.map Socket.sid).count x) := by
  induction socks with
  | nil => rfl
  | cons a l ih =>
    simp only [List.map_cons, List.count_cons, ih]
    by_cases h : a.sid = x
    · simp [h]
    · simp [h]

/-- Any chat-message event among the handler's deliveries carries the
sender's stored identity and is persisted in the handler's resulting
table — and only the success branch emits one. -/
lemma chatMessage_mem_handle {io : List Socket} {sock : Socket} {db : Db}
    {d : ChatData} {pOk : Bool} {now rcpt id auid : Nat} {aun : String}
    {m : Text} {ts : Nat}
    (h : (rcpt, Event.chatMessage id auid aun m ts) ∈
      (handleChatMessage io sock db d pOk now).2) :
    pOk = true ∧ auid = sock.userId ∧ aun = sock.username ∧
    (⟨id, auid, aun, m, ts⟩ : MsgRow) ∈
      (handleChatMessage io sock db d pOk now).1.rows := by
  cases hm : d.message with
  | none =>
    rw [handleChatMessage_blank io sock db d pOk now (Or.inl hm)] at h
    simp at h
  | some mtxt =>
    by_cases hms : trimText mtxt = []
    · rw [handleChatMessage_blank io sock db d pOk now
        (Or.inr ⟨mtxt, hm, hms⟩)] at h
      simp at h
    · cases pOk with
      | false =>
        rw [handleChatMessage_fail io sock db d mtxt now hm hms] at h
        simp at h
      | true =>
        rw [handleChatMessage_ok io sock db d mtxt now hm hms] at h ⊢
        simp only [ioEmit] at h
        rcases List.mem_map.1 h with ⟨t, _, heq⟩
        rw [Prod.mk.injEq] at heq
        rcases heq with ⟨_, hev⟩
        rw [Event.chatMessage.injEq] at hev
        rcases hev with ⟨hid, huid, hun, hmm, hts⟩
        subst hid; subst huid; subst hun; subst hmm; subst hts
        exact ⟨rfl, rfl, rfl, by simp⟩

/-! ## Claims -/

/-- C3: a submission whose text is absent, empty or whitespace-only
persists nothing, broadcasts nothing, and the sender receives exactly one
unicast empty-message error. -/
theorem submit_blank_rejected
    (s : SysState) (sid : Nat) (sock : Socket) (d : ChatData) (pOk : Bool)
    (now : Nat)
    (hfind : findSock s.sockets sid = some sock)
    (hblank : d.message = none ∨ ∃ m, d.message = some m ∧ trimText m = []) :
    step s (.chatMsg sid d pOk now) =
      (s, [(sid, Event.errorEv "Message cannot be empty")]) := by
  have hsid : sock.sid = sid := (findSock_eq hfind).2
  rw [step_chatMsg_found d pOk now hfind,
    handleChatMessage_blank _ _ _ _ _ _ hblank, hsid]

/-- Witness for C3: a concrete whitespace-only submission. -/
theorem submit_blank_rejected_witness :
    findSock [⟨1, 10, "alice"⟩] 1 = some ⟨1, 10, "alice"⟩ ∧
    step ⟨[⟨1, 10, "alice"⟩], ⟨[], 1⟩⟩
        (.chatMsg 1 ⟨some [' ', ' '], none, none⟩ true 5) =
      (⟨[⟨1, 10, "alice"⟩], ⟨[], 1⟩⟩,
        [(1, Event.errorEv "Message cannot be empty")]) :=
  ⟨by decide,
    submit_blank_rejected _ 1 ⟨1, 10, "alice"⟩ _ true 5 (by decide)
      (Or.inr ⟨[' ', ' '], rfl, rfl⟩)⟩

/-- C1: a valid submission (non-empty after trimming, at most 1000
characters) appends exactly one row to the `messages` table and delivers
exactly one chat-message event, with the persisted id, text and author,
to every connected socket, the sender included. -/
theorem submit_valid_broadcast_all
    (s : SysState) (sid : Nat) (sock : Socket) (d : ChatData) (m : Text)
    (now : Nat)
    (hfind : findSock s.sockets sid = some sock)
    (hmsg : d.message = some m)
    (hne : trimText m ≠ [])
    (hnodup : (s.sockets.map Socket.sid).Nodup) :
    (step s (.chatMsg sid d true now)).1.db.rows =
      s.db.rows ++ [⟨s.db.nextId, sock.userId, sock.username,
        takeText 1000 (trimText m), now⟩] ∧
    (step s (.chatMsg sid d true now)).2 =
      s.sockets.map (fun t => (t.sid, Event.chatMessage s.db.nextId
        sock.userId sock.username (takeText 1000 (trimText m)) now)) ∧
    sock ∈ s.sockets ∧
    ∀ t ∈ s.sockets,
      (step s (.chatMsg sid d true now)).2.count
        (t.sid, Event.chatMessage s.db.nextId sock.userId sock.username
          (takeText 1000 (trimText m)) now) = 1 := by
  have hok := handleChatMessage_ok s.sockets sock s.db d m now hmsg hne
  have hstep : step s (.chatMsg sid d true now) =
      (⟨s.sockets, ⟨s.db.rows ++ [⟨s.db.nextId, sock.userId,
          sock.username, takeText 1000 (trimText m), now⟩],
        s.db.nextId + 1⟩⟩,
        ioEmit s.sockets (Event.chatMessage s.db.nextId sock.userId
          sock.username (takeText 1000 (trimText m)) now)) := by
    rw [step_chatMsg_found d true now hfind, hok]
  refine ⟨by rw [hstep], by rw [hstep]; rfl, (findSock_eq hfind).1, ?_⟩
  intro t ht
  rw [hstep]
  show (ioEmit s.sockets _).count _ = 1
  rw [ioEmit, count_pair_map]
  exact List.count_eq_one_of_mem hnodup (List.mem_map_of_mem _ ht)

/-- Witness for C1: a concrete two-socket submission; both sockets get
the message event exactly once. -/
theorem submit_valid_broadcast_all_witness :
    findSock [⟨1, 10, "alice"⟩, ⟨2, 20, "bob"⟩] 1 = some ⟨1, 10, "alice"⟩ ∧
    trimText ['h', 'i'] ≠ [] ∧
    ([(⟨1, 10, "alice"⟩ : Socket), ⟨2, 20, "bob"⟩].map Socket.sid).Nodup ∧
    ∀ t ∈ [(⟨1, 10, "alice"⟩ : Socket), ⟨2, 20, "bob"⟩],
      (step ⟨[⟨1, 10, "alice"⟩, ⟨2, 20, "bob"⟩], ⟨[], 1⟩⟩
          (.chatMsg 1 ⟨some ['h', 'i'], none, none⟩ true 5)).2.count
        (t.sid, Event.chatMessage 1 10 "alice"
          (takeText 1000 (trimText ['h', 'i'])) 5) = 1 :=
  ⟨by decide, by decide, by decide,
    (submit_valid_broadcast_all ⟨[⟨1, 10, "alice"⟩, ⟨2, 20, "bob"⟩], ⟨[], 1⟩⟩
      1 ⟨1, 10, "alice"⟩ ⟨some ['h', 'i'], none, none⟩ ['h', 'i'] 5
      (by decide) rfl (by decide) (by decide)).2.2.2⟩

/-- C4: a submission whose trimmed text exceeds 1000 characters is
persisted and broadcast with exactly the first 1000 characters of the
trimmed text; the truncation is silent — no error event is emitted. -/
theorem submit_long_truncated_silently
    (s : SysState) (sid : Nat) (sock : Socket) (d : ChatData) (m : Text)
    (now : Nat)
    (hfind : findSock s.sockets sid = some sock)
    (hmsg : d.message = some m)
    (hlong : 1000 < (trimText m).length) :
    (step s (.chatMsg sid d true now)).1.db.rows =
      s.db.rows ++ [⟨s.db.nextId, sock.userId, sock.username,
        takeText 1000 (trimText m), now⟩] ∧
    (takeText 1000 (trimText m)).length = 1000 ∧
    (step s (.chatMsg sid d true now)).2 =
      s.sockets.map (fun t => (t.sid, Event.chatMessage s.db.nextId
        sock.userId sock.username (takeText 1000 (trimText m)) now)) ∧
    ∀ p ∈ (step s (.chatMsg sid d true now)).2, ∀ emsg,
      p.2 ≠ Event.errorEv emsg := by
  have hne : trimText m ≠ [] := by
    intro h
    rw [h] at hlong
    simp at hlong
  have hok := handleChatMessage_ok s.sockets sock s.db d m now hmsg hne
  have hstep : step s (.chatMsg sid d true now) =
      (⟨s.sockets, ⟨s.db.rows ++ [⟨s.db.nextId, sock.userId,
          sock.username, takeText 1000 (trimText m), now⟩],
        s.db.nextId + 1⟩⟩,
        ioEmit s.sockets (Event.chatMessage s.db.nextId sock.userId
          sock.username (takeText 1000 (trimText m)) now)) := by
    rw [step_chatMsg_found d true now hfind, hok]
  refine ⟨by rw [hstep], ?_, by rw [hstep]; rfl, ?_⟩
  · show (List.take 1000 (trimText m)).length = 1000
    rw [List.length_take]
    exact min_eq_left (Nat.le_of_lt hlong)
  · intro p hp emsg
    rw [hstep] at hp
    rcases List.mem_map.1 hp with ⟨t, _, rfl⟩
    simp

set_option maxRecDepth 100000 in
/-- Witness for C4: a concrete 1001-character submission; the broadcast
body has length exactly 1000. -/
theorem submit_long_truncated_silently_witness :
    findSock [⟨1, 10, "alice"⟩] 1 = some ⟨1, 10, "alice"⟩ ∧
    1000 < (trimText (List.replicate 1001 'a')).length ∧
    (takeText 1000 (trimText (List.replicate 1001 'a'))).length = 1000 :=
  ⟨by decide, by decide,
    (submit_long_truncated_silently ⟨[⟨1, 10, "alice"⟩], ⟨[], 1⟩⟩ 1
      ⟨1, 10, "alice"⟩ ⟨some (List.replicate 1001 'a'), none, none⟩
      (List.replicate 1001 'a') 5 (by decide) rfl (by decide)).2.1⟩

/-- C5: when the insert fails on a valid submission, the sender receives
exactly one unicast failure error, nothing is broadcast, the database is
unchanged (no retry), and the sender's connection stays open. -/
theorem submit_persist_failure_unicast_only
    (s : SysState) (sid : Nat) (sock : Socket) (d : ChatData) (m : Text)
    (now : Nat)
    (hfind : findSock s.sockets sid = some sock)
    (hmsg : d.message = some m)
    (hne : trimText m ≠ []) :
    step s (.chatMsg sid d false now) =
      (s, [(sid, Event.errorEv "Failed to send message")]) ∧
    sock ∈ (step s (.chatMsg sid d false now)).1.sockets := by
  have hsid : sock.sid = sid := (findSock_eq hfind).2
  have hmem : sock ∈ s.sockets := (findSock_eq hfind).1
  have hstep : step s (.chatMsg sid d false now) =
      (s, [(sid, Event.errorEv "Failed to send message")]) := by
    rw [step_chatMsg_found d false now hfind,
      handleChatMessage_fail _ _ _ _ _ _ hmsg hne, hsid]
  exact ⟨hstep, by rw [hstep]; exact hmem⟩

/-- Witness for C5: a concrete failing insert. -/
theorem submit_persist_failure_unicast_only_witness :
    findSock [⟨1, 10, "alice"⟩, ⟨2, 20, "bob"⟩] 1 = some ⟨1, 10, "alice"⟩ ∧
    (step ⟨[⟨1, 10, "alice"⟩, ⟨2, 20, "bob"⟩], ⟨[], 1⟩⟩
        (.chatMsg 1 ⟨some ['h', 'i'], none, none⟩ false 5) =
      (⟨[⟨1, 10, "alice"⟩, ⟨2, 20, "bob"⟩], ⟨[], 1⟩⟩,
        [(1, Event.errorEv "Failed to send message")]) ∧
      (⟨1, 10, "alice"⟩ : Socket) ∈
        (step ⟨[⟨1, 10, "alice"⟩, ⟨2, 20, "bob"⟩], ⟨[], 1⟩⟩
          (.chatMsg 1 ⟨some ['h', 'i'], none, none⟩ false 5)).1.sockets) :=
  ⟨by decide,
    submit_persist_failure_unicast_only _ 1 ⟨1, 10, "alice"⟩ _ ['h', 'i'] 5
      (by decide) rfl (by decide)⟩

/-- C6: a successful registration broadcasts the joined event to every
previously connected socket — the joiner excluded — and then unicasts the
welcome to the joiner alone; the joiner never receives its own joined
event. -/
theorem join_broadcast_excludes_joiner
    (s : SysState) (sid uid : Nat) (sess : Sess) (now : Nat)
    (huid : sess.userId = some uid) (h0 : uid ≠ 0)
    (hfresh : ∀ t ∈ s.sockets, t.sid ≠ sid) :
    (step s (.connect sid (some sess) now)).1.sockets =
      s.sockets ++ [⟨sid, uid, sess.username⟩] ∧
    (step s (.connect sid (some sess) now)).2 =
      s.sockets.map (fun t => (t.sid, Event.userJoined sess.username now)) ++
        [(sid, Event.welcome ("Welcome to the chat, " ++ sess.username ++ "!")
          sess.username)] ∧
    ∀ p ∈ (step s (.connect sid (some sess) now)).2,
      (∀ un ts, p.2 = Event.userJoined un ts → p.1 ≠ sid) ∧
      (∀ msg un, p.2 = Event.welcome msg un → p.1 = sid) := by
  have hb := broadcastEmit_append_fresh s.sockets ⟨sid, uid, sess.username⟩
    sid (Event.userJoined sess.username now) rfl hfresh
  have hstep : step s (.connect sid (some sess) now) =
      (⟨s.sockets ++ [⟨sid, uid, sess.username⟩], s.db⟩,
        s.sockets.map (fun t => (t.sid, Event.userJoined sess.username now)) ++
          [(sid, Event.welcome ("Welcome to the chat, " ++ sess.username ++ "!")
            sess.username)]) := by
    show stepConnect s sid (some sess) now = _
    rw [stepConnect_authed s sid uid sess now huid h0, hb]
  refine ⟨by rw [hstep], by rw [hstep], ?_⟩
  intro p hp
  rw [hstep] at hp
  rcases List.mem_append.1 hp with hmap | hwel
  · rcases List.mem_map.1 hmap with ⟨t, ht, rfl⟩
    exact ⟨fun un ts _ => hfresh t ht, fun msg un hev => by simp at hev⟩
  · rcases List.mem_singleton.1 hwel with rfl
    exact ⟨fun un ts hev => by simp at hev, fun msg un _ => rfl⟩

/-- Witness for C6: a concrete registration next to one open socket. -/
theorem join_broadcast_excludes_joiner_witness :
    (⟨some 20, "bob"⟩ : Sess).userId = some 20 ∧
    (∀ t ∈ [(⟨1, 10, "alice"⟩ : Socket)], t.sid ≠ 2) ∧
    (step ⟨[⟨1, 10, "alice"⟩], ⟨[], 1⟩⟩
        (.connect 2 (some ⟨some 20, "bob"⟩) 7)).2 =
      [(⟨1, 10, "alice"⟩ : Socket)].map
          (fun t => (t.sid, Event.userJoined "bob" 7)) ++
        [(2, Event.welcome ("Welcome to the chat, " ++ "bob" ++ "!") "bob")] :=
  ⟨rfl, by decide,
    (join_broadcast_excludes_joiner ⟨[⟨1, 10, "alice"⟩], ⟨[], 1⟩⟩ 2 20
      ⟨some 20, "bob"⟩ 7 rfl (by decide) (by decide)).2.1⟩

/-- C2: durability before visibility — whatever the inbound occurrence,
every chat-message event the server delivers to any connection matches a
row already present in the resulting `messages` table; nothing is
broadcast on the failure or rejection paths. -/
theorem broadcast_implies_persisted
    (s : SysState) (inp : Input) (rcpt id uid : Nat) (un : String)
    (m : Text) (ts : Nat)
    (h : (rcpt, Event.chatMessage id uid un m ts) ∈ (step s inp).2) :
    (⟨id, uid, un, m, ts⟩ : MsgRow) ∈ (step s inp).1.db.rows := by
  cases inp with
  | connect sid session now =>
    exfalso
    cases session with
    | none => simp [step, stepConnect] at h
    | some sess =>
      cases hu : sess.userId with
      | none => simp [step, stepConnect, hu] at h
      | some u =>
        by_cases h0 : u = 0
        · simp [step, stepConnect, hu, h0] at h
        · simp [step, stepConnect, hu, h0, broadcastEmit, selfEmit] at h
  | chatMsg sid d pOk now =>
    cases hfind : findSock s.sockets sid with
    | none => simp [step, hfind] at h
    | some sock =>
      rw [step_chatMsg_found d pOk now hfind] at h ⊢
      exact (chatMessage_mem_handle h).2.2.2
  | typing sid =>
    exfalso
    cases hfind : findSock s.sockets sid with
    | none => simp [step, hfind] at h
    | some sock => simp [step, hfind, broadcastEmit] at h
  | stopTyping sid =>
    exfalso
    cases hfind : findSock s.sockets sid with
    | none => simp [step, hfind] at h
    | some sock => simp [step, hfind, broadcastEmit] at h
  | disconnect sid now =>
    exfalso
    cases hfind : findSock s.sockets sid with
    | none => simp [step, hfind] at h
    | some sock => simp [step, hfind, broadcastEmit] at h

/-- Witness for C2: a delivered chat-message event at a concrete input,
with its matching persisted row. -/
theorem broadcast_implies_persisted_witness :
    (2, Event.chatMessage 1 10 "alice" ['h', 'i'] 5) ∈
      (step ⟨[⟨1, 10, "alice"⟩, ⟨2, 20, "bob"⟩], ⟨[], 1⟩⟩
        (.chatMsg 1 ⟨some ['h', 'i'], none, none⟩ true 5)).2 ∧
    (⟨1, 10, "alice", ['h', 'i'], 5⟩ : MsgRow) ∈
      (step ⟨[⟨1, 10, "alice"⟩, ⟨2, 20, "bob"⟩], ⟨[], 1⟩⟩
        (.chatMsg 1 ⟨some ['h', 'i'], none, none⟩ true 5)).1.db.rows :=
  ⟨by decide,
    broadcast_implies_persisted ⟨[⟨1, 10, "alice"⟩, ⟨2, 20, "bob"⟩], ⟨[], 1⟩⟩
      (.chatMsg 1 ⟨some ['h', 'i'], none, none⟩ true 5) 2 1 10 "alice"
      ['h', 'i'] 5 (by decide)⟩

/-- C7 counterexample: a successful chat submission from alice (socket 1,
with bob's socket 2 also open) delivers exactly the two chat-message
events and nothing else — in particular no stop-typing event for alice
reaches socket 2, contradicting the claim that a submission implicitly
triggers a stop-typing broadcast. -/
theorem msg_submit_no_stop_typing_counterexample :
    step ⟨[⟨1, 10, "alice"⟩, ⟨2, 20, "bob"⟩], ⟨[], 1⟩⟩
        (.chatMsg 1 ⟨some ['h', 'i'], none, none⟩ true 5) =
      (⟨[⟨1, 10, "alice"⟩, ⟨2, 20, "bob"⟩],
          ⟨[⟨1, 10, "alice", ['h', 'i'], 5⟩], 2⟩⟩,
        [(1, Event.chatMessage 1 10 "alice" ['h', 'i'] 5),
          (2, Event.chatMessage 1 10 "alice" ['h', 'i'] 5)]) := by
  decide

/-- C7 amended: the server broadcasts a stop-typing event for X to every
open connection except X's own only upon X's explicit `'stop typing'`
signal; a chat submission emits no stop-typing event at all (the
reference client sends the explicit signal itself upon submitting). -/
theorem stop_typing_only_on_explicit_signal
    (s : SysState) (sid : Nat) (sock : Socket)
    (hfind : findSock s.sockets sid = some sock) :
    step s (.stopTyping sid) =
      (s, broadcastEmit s.sockets sid (Event.userStopTyping sock.username)) ∧
    (∀ p ∈ (step s (.stopTyping sid)).2,
      p.1 ≠ sid ∧ p.2 = Event.userStopTyping sock.username) ∧
    (∀ t ∈ s.sockets, t.sid ≠ sid →
      (t.sid, Event.userStopTyping sock.username) ∈
        (step s (.stopTyping sid)).2) ∧
    ∀ d pOk now p, p ∈ (step s (.chatMsg sid d pOk now)).2 →
      ∀ un, p.2 ≠ Event.userStopTyping un := by
  have hstep : step s (.stopTyping sid) =
      (s, broadcastEmit s.sockets sid (Event.userStopTyping sock.username)) := by
    simp only [step, hfind]
  refine ⟨hstep, ?_, ?_, ?_⟩
  · intro p hp
    rw [hstep] at hp
    unfold broadcastEmit at hp
    rcases List.mem_map.1 hp with ⟨t, ht, rfl⟩
    have := List.of_mem_filter ht
    simpa using this
  · intro t ht hne
    rw [hstep]
    unfold broadcastEmit
    exact List.mem_map_of_mem _ (List.mem_filter.2 ⟨ht, by simpa using hne⟩)
  · intro d pOk now p hp un
    rw [step_chatMsg_found d pOk now hfind] at hp
    cases hm : d.message with
    | none =>
      rw [handleChatMessage_blank s.sockets sock s.db d pOk now (Or.inl hm)]
        at hp
      rcases List.mem_singleton.1 hp with rfl
      simp
    | some mtxt =>
      by_cases hms : trimText mtxt = []
      · rw [handleChatMessage_blank s.sockets sock s.db d pOk now
          (Or.inr ⟨mtxt, hm, hms⟩)] at hp
        rcases List.mem_singleton.1 hp with rfl
        simp
      · cases pOk with
        | false =>
          rw [handleChatMessage_fail s.sockets sock s.db d mtxt now hm hms]
            at hp
          rcases List.mem_singleton.1 hp with rfl
          simp
        | true =>
          rw [handleChatMessage_ok s.sockets sock s.db d mtxt now hm hms]
            at hp
          simp only [ioEmit] at hp
          rcases List.mem_map.1 hp with ⟨t, _, rfl⟩
          simp

/-- Witness for the amended C7 at a concrete two-socket state. -/
theorem stop_typing_only_on_explicit_signal_witness :
    findSock [⟨1, 10, "alice"⟩, ⟨2, 20, "bob"⟩] 1 = some ⟨1, 10, "alice"⟩ ∧
    step ⟨[⟨1, 10, "alice"⟩, ⟨2, 20, "bob"⟩], ⟨[], 1⟩⟩ (.stopTyping 1) =
      (⟨[⟨1, 10, "alice"⟩, ⟨2, 20, "bob"⟩], ⟨[], 1⟩⟩,
        broadcastEmit [⟨1, 10, "alice"⟩, ⟨2, 20, "bob"⟩] 1
          (Event.userStopTyping "alice")) :=
  ⟨by decide,
    (stop_typing_only_on_explicit_signal
      ⟨[⟨1, 10, "alice"⟩, ⟨2, 20, "bob"⟩], ⟨[], 1⟩⟩ 1 ⟨1, 10, "alice"⟩
      (by decide)).1⟩

/-- An input addressed to connection `sid` whose connect attempt (if any)
is unauthenticated. -/
def badFor (sid : Nat) : Input → Bool
  | .connect s2 sess _ => s2 == sid && !(sessionAuthed sess)
  | i => Input.src i == sid

/-- An unauthenticated handshake is a complete no-op. -/
lemma stepConnect_unauthed (s : SysState) (sid : Nat)
    (session : Option Sess) (now : Nat)
    (hbad : sessionAuthed session = false) :
    stepConnect s sid session now = (s, []) := by
  cases session with
  | none => rfl
  | some sess =>
    cases hu : sess.userId with
    | none => simp [stepConnect, hu]
    | some u =>
      have h0 : u = 0 := by simpa [sessionAuthed, hu] using hbad
      simp [stepConnect, hu, h0]

/-- On a state with no socket `sid`, any input addressed to `sid` whose
connect attempt is unauthenticated leaves the state unchanged and emits
nothing. -/
lemma step_noop (s : SysState) (sid : Nat) (i : Input)
    (hbad : badFor sid i = true)
    (hfresh : findSock s.sockets sid = none) :
    step s i = (s, []) := by
  cases i with
  | connect s2 sess now =>
    simp only [badFor, Bool.and_eq_true, beq_iff_eq, Bool.not_eq_true'] at hbad
    exact stepConnect_unauthed s s2 sess now hbad.2
  | chatMsg s2 d pOk now =>
    simp only [badFor, Input.src, beq_iff_eq] at hbad
    subst hbad
    simp [step, hfresh]
  | typing s2 =>
    simp only [badFor, Input.src, beq_iff_eq] at hbad
    subst hbad
    simp [step, hfresh]
  | stopTyping s2 =>
    simp only [badFor, Input.src, beq_iff_eq] at hbad
    subst hbad
    simp [step, hfresh]
  | disconnect s2 now =>
    simp only [badFor, Input.src, beq_iff_eq] at hbad
    subst hbad
    simp [step, hfresh]

/-- C8: a connection whose handshake fails authentication is closed at
once with no event and no registry entry, and — its socket never being
registered — every later occurrence on it (messages, typing signals, the
final disconnect) emits nothing: its identity never reaches any joined or
left broadcast and it never receives a welcome. -/
theorem unauthenticated_connection_invisible
    (s : SysState) (sid : Nat) (session : Option Sess) (now : Nat)
    (inputs : List Input)
    (hbad : sessionAuthed session = false)
    (hfresh : findSock s.sockets sid = none)
    (hinps : ∀ i ∈ inputs, badFor sid i = true) :
    run s (Input.connect sid session now :: inputs) = (s, []) := by
  have haux : ∀ (l : List Input), (∀ i ∈ l, badFor sid i = true) →
      run s l = (s, []) := by
    intro l
    induction l with
    | nil => intro _; rfl
    | cons i is ih =>
      intro hl
      have h1 := step_noop s sid i (hl i (List.mem_cons_self i is)) hfresh
      have h2 := ih (fun j hj => hl j (List.mem_cons_of_mem i hj))
      simp [run, h1, h2]
  have hconn : step s (.connect sid session now) = (s, []) :=
    stepConnect_unauthed s sid session now hbad
  simp [run, hconn, haux inputs hinps]

/-- Witness for C8: a sessionless handshake followed by a message attempt
and a disconnect on the same connection — nothing happens. -/
theorem unauthenticated_connection_invisible_witness :
    sessionAuthed none = false ∧
    findSock [⟨1, 10, "alice"⟩] 5 = none ∧
    (∀ i ∈ [Input.chatMsg 5 ⟨some ['h', 'i'], none, none⟩ true 8,
        Input.disconnect 5 9], badFor 5 i = true) ∧
    run ⟨[⟨1, 10, "alice"⟩], ⟨[], 1⟩⟩
        (Input.connect 5 none 7 ::
          [Input.chatMsg 5 ⟨some ['h', 'i'], none, none⟩ true 8,
            Input.disconnect 5 9]) =
      (⟨[⟨1, 10, "alice"⟩], ⟨[], 1⟩⟩, []) :=
  ⟨rfl, by decide, by decide,
    unauthenticated_connection_invisible ⟨[⟨1, 10, "alice"⟩], ⟨[], 1⟩⟩ 5
      none 7 [.chatMsg 5 ⟨some ['h', 'i'], none, none⟩ true 8,
        .disconnect 5 9] rfl (by decide) (by decide)⟩

/-- C9: every history request with a non-negative offset succeeds and
returns a list ordered ascending by timestamp with at most 100 entries
whatever limit was requested; with no limit given the effective page size
is 50. -/
theorem history_sorted_limited
    (rows : List MsgRow) (limitQ offsetQ : Option Int)
    (hoff : 0 ≤ parseIntOr offsetQ 0) :
    ∃ out, getMessages rows limitQ offsetQ = some out ∧
      List.Sorted byTime out ∧
      out.length ≤ 100 ∧
      (limitQ = none →
        out.length = min 50 (rows.length - (parseIntOr offsetQ 0).toNat)) := by
  have hnneg : ¬ parseIntOr offsetQ 0 < 0 := not_lt.2 hoff
  refine ⟨((List.insertionSort byTime rows).drop
      (parseIntOr offsetQ 0).toNat).take
      (min (max (parseIntOr limitQ 50) 1) 100).toNat, ?_, ?_, ?_, ?_⟩
  · simp only [getMessages]
    rw [if_neg hnneg]
  · exact List.Pairwise.sublist
      ((List.take_sublist _ _).trans (List.drop_sublist _ _))
      (List.sorted_insertionSort byTime rows)
  · rw [List.length_take]
    refine le_trans (min_le_left _ _) ?_
    have h100 : min (max (parseIntOr limitQ 50) 1) 100 ≤ (100 : Int) :=
      min_le_right _ _
    calc (min (max (parseIntOr limitQ 50) 1) 100).toNat
        ≤ ((100 : Int)).toNat := Int.toNat_le_toNat h100
      _ = 100 := rfl
  · intro hnone
    subst hnone
    have h50 : (min (max (parseIntOr (none : Option Int) 50) 1) 100).toNat
        = 50 := by decide
    rw [h50, List.length_take, List.length_drop,
      List.length_insertionSort]

/-- Witness for C9: a concrete two-row table with no query parameters. -/
theorem history_sorted_limited_witness :
    (0 : Int) ≤ parseIntOr none 0 ∧
    ∃ out, getMessages [⟨1, 10, "alice", ['h'], 20⟩,
        ⟨2, 20, "bob", ['x'], 10⟩] none none = some out ∧
      List.Sorted byTime out ∧
      out.length ≤ 100 ∧
      ((none : Option Int) = none →
        out.length = min 50
          (([⟨1, 10, "alice", ['h'], 20⟩,
            ⟨2, 20, "bob", ['x'], 10⟩] : List MsgRow).length -
            (parseIntOr none 0).toNat)) :=
  ⟨by decide,
    history_sorted_limited [⟨1, 10, "alice", ['h'], 20⟩,
      ⟨2, 20, "bob", ['x'], 10⟩] none none (by decide)⟩

/-- C10: the identity on a broadcast chat message is the one bound to the
sending connection from its session at handshake time, independent of the
inbound payload: two submissions with equal text and arbitrary other
payload fields produce identical results, and every delivered
chat-message event carries the session's user id and username. -/
theorem broadcast_identity_session_bound
    (s : SysState) (sid uid : Nat) (sess : Sess) (now0 now : Nat)
    (d1 d2 : ChatData) (pOk : Bool)
    (huid : sess.userId = some uid) (h0 : uid ≠ 0)
    (hfresh : findSock s.sockets sid = none)
    (hmsg : d1.message = d2.message) :
    step (step s (.connect sid (some sess) now0)).1
        (.chatMsg sid d1 pOk now) =
      step (step s (.connect sid (some sess) now0)).1
        (.chatMsg sid d2 pOk now) ∧
    ∀ rcpt id auid aun m ts,
      (rcpt, Event.chatMessage id auid aun m ts) ∈
        (step (step s (.connect sid (some sess) now0)).1
          (.chatMsg sid d1 pOk now)).2 →
      auid = uid ∧ aun = sess.username := by
  have hfind1 : findSock
      (step s (.connect sid (some sess) now0)).1.sockets sid =
      some ⟨sid, uid, sess.username⟩ := by
    have hs1 : (step s (.connect sid (some sess) now0)).1 =
        (⟨s.sockets ++ [⟨sid, uid, sess.username⟩], s.db⟩ : SysState) := by
      show (stepConnect s sid (some sess) now0).1 = _
      rw [stepConnect_authed s sid uid sess now0 huid h0]
    rw [hs1]
    exact findSock_append_self ⟨sid, uid, sess.username⟩ hfresh
  constructor
  · rw [step_chatMsg_found d1 pOk now hfind1,
      step_chatMsg_found d2 pOk now hfind1]
    have hcongr : handleChatMessage
        (step s (.connect sid (some sess) now0)).1.sockets
        ⟨sid, uid, sess.username⟩
        (step s (.connect sid (some sess) now0)).1.db d1 pOk now =
      handleChatMessage
        (step s (.connect sid (some sess) now0)).1.sockets
        ⟨sid, uid, sess.username⟩
        (step s (.connect sid (some sess) now0)).1.db d2 pOk now := by
      unfold handleChatMessage
      rw [hmsg]
    rw [hcongr]
  · intro rcpt id auid aun m ts hmem
    rw [step_chatMsg_found d1 pOk now hfind1] at hmem
    have h := chatMessage_mem_handle hmem
    exact ⟨h.2.1, h.2.2.1⟩

/-- Witness for C10: two payloads, equal text but different claimed
identity fields, on a concrete registered connection. -/
theorem broadcast_identity_session_bound_witness :
    (⟨some 10, "alice"⟩ : Sess).userId = some 10 ∧
    findSock [] 1 = none ∧
    (⟨some ['h', 'i'], some 99, some "mallory"⟩ : ChatData).message =
      (⟨some ['h', 'i'], none, none⟩ : ChatData).message ∧
    step (step ⟨[], ⟨[], 1⟩⟩ (.connect 1 (some ⟨some 10, "alice"⟩) 3)).1
        (.chatMsg 1 ⟨some ['h', 'i'], some 99, some "mallory"⟩ true 5) =
      step (step ⟨[], ⟨[], 1⟩⟩ (.connect 1 (some ⟨some 10, "alice"⟩) 3)).1
        (.chatMsg 1 ⟨some ['h', 'i'], none, none⟩ true 5) :=
  ⟨rfl, rfl, rfl,
    (broadcast_identity_session_bound ⟨[], ⟨[], 1⟩⟩ 1 10 ⟨some 10, "alice"⟩
      3 5 ⟨some ['h', 'i'], some 99, some "mallory"⟩
      ⟨some ['h', 'i'], none, none⟩ true rfl (by decide) rfl rfl).1⟩

end ChatApp
